import Mathlib

/-!
Shallow embedding of the NSIP plugin resilience layer:
the hooks result_cache.py, auto_retry.py, fallback_cache.py and
error_notifier.py (directory src/hooks/scripts).  Pure functions are
translated to Lean functions; filesystem state (cache files, JSONL audit
logs, the tracker state file, alert files) is passed explicitly; clock
reads are an explicit integer parameter (seconds).  The sha256 hexdigest
used for cache file names is an uninterpreted pure function parameter
named digest; the claims do not depend on its internals.
-/

/-- Prefix test on character lists (helper for the substring test). -/
def listStarts : List Char → List Char → Bool
  | [], _ => true
  | _ :: _, [] => false
  | a :: as, b :: bs => a == b && listStarts as bs

/-- Substring test on character lists (helper for the substring test). -/
def listHasSub (needle : List Char) : List Char → Bool
  | [] => needle.isEmpty
  | b :: bs => listStarts needle (b :: bs) || listHasSub needle bs

/-- Models the Python expression needle in hay on strings. -/
def pyIn (needle hay : String) : Bool :=
  listHasSub needle.data hay.data

/-- Models the Python method lower() (ASCII case folding; all strings
the classifiers inspect for keywords are compared after lowering). -/
def strToLower (s : String) : String :=
  String.mk (s.data.map Char.toLower)

/-- Models the Python slice text[:n] (by characters). -/
def strTake (s : String) (n : Nat) : String :=
  String.mk (s.data.take n)

/-- Models the Python method s.startswith(pre). -/
def strStartsWith (s pre : String) : Bool :=
  listStarts pre.data s.data

/-- One pass of Python str.replace over the character list, replacing
non-overlapping occurrences left to right; the fuel argument (the
length of the remaining text) makes the recursion structural. -/
def replaceFuel (pat rep : List Char) : Nat → List Char → List Char
  | _, [] => []
  | 0, l => l
  | fuel + 1, c :: cs =>
      if listStarts pat (c :: cs) then
        rep ++ replaceFuel pat rep fuel (List.drop (pat.length - 1) cs)
      else
        c :: replaceFuel pat rep fuel cs

/-- Models the Python method s.replace(pattern, replacement) for a
non-empty pattern (the only use site passes mcp__nsip__). -/
def strReplace (s pattern replacement : String) : String :=
  if pattern.data.isEmpty then s
  else String.mk (replaceFuel pattern.data replacement.data s.data.length s.data)

/-- A JSON value, the shape of tool arguments (Python dicts are modelled
as insertion-ordered association lists). -/
inductive JValue where
  | null : JValue
  | bool : Bool → JValue
  | num : Int → JValue
  | str : String → JValue
  | arr : List JValue → JValue
  | obj : List (String × JValue) → JValue

/-- Double-quoted rendering of a string, as json.dumps renders keys and
string values (escaping is not modelled). -/
def jsonQuote (s : String) : String := "\x22" ++ s ++ "\x22"

/-- Lexicographic order on character lists by code point, the order
Python uses to compare strings when sorting keys. -/
def charListLe : List Char → List Char → Bool
  | [], _ => true
  | _ :: _, [] => false
  | a :: as, b :: bs =>
      if a.toNat < b.toNat then true
      else if b.toNat < a.toNat then false
      else charListLe as bs

theorem charListLe_total : ∀ as bs, charListLe as bs = true ∨ charListLe bs as = true
  | [], _ => Or.inl rfl
  | _ :: _, [] => Or.inr rfl
  | a :: as, b :: bs => by
      rcases Nat.lt_trichotomy a.toNat b.toNat with h | h | h
      · exact Or.inl (by simp [charListLe, h])
      · rcases charListLe_total as bs with ih | ih
        · exact Or.inl (by simp [charListLe, h, ih])
        · exact Or.inr (by simp [charListLe, h.symm, ih])
      · exact Or.inr (by simp [charListLe, h])

theorem charListLe_trans : ∀ as bs cs, charListLe as bs = true →
    charListLe bs cs = true → charListLe as cs = true
  | [], _, _, _, _ => rfl
  | a :: as, [], _, h, _ => by simp [charListLe] at h
  | _ :: _, _ :: _, [], _, h => by simp [charListLe] at h
  | a :: as, b :: bs, c :: cs, h1, h2 => by
      simp only [charListLe] at h1 h2 ⊢
      split_ifs at h1 h2 ⊢ with hab hba hbc hcb hac hca <;>
        first
        | rfl
        | omega
        | exact charListLe_trans as bs cs h1 h2

theorem charListLe_antisymm : ∀ as bs, charListLe as bs = true →
    charListLe bs as = true → as = bs
  | [], [], _, _ => rfl
  | [], _ :: _, _, h => by simp [charListLe] at h
  | _ :: _, [], h, _ => by simp [charListLe] at h
  | a :: as, b :: bs, h1, h2 => by
      simp only [charListLe] at h1 h2
      split_ifs at h1 h2 with hab hba
      · omega
      · have hval : a = b := by
          have h : a.toNat = b.toNat := by omega
          exact Char.ext (UInt32.toNat.inj h)
        rw [hval, charListLe_antisymm as bs h1 h2]

/-- The order used to sort object keys: lexicographic string comparison
by code point on the key of each entry. -/
def keyOrder (a b : String × String) : Prop := charListLe a.1.data b.1.data = true

instance : DecidableRel keyOrder := fun a b =>
  inferInstanceAs (Decidable (charListLe a.1.data b.1.data = true))

instance : IsTotal (String × String) keyOrder :=
  ⟨fun a b => charListLe_total a.1.data b.1.data⟩

instance : IsTrans (String × String) keyOrder :=
  ⟨fun _ _ _ hab hbc => charListLe_trans _ _ _ hab hbc⟩

mutual
/-- Models json.dumps(v, sort_keys=True) with the default separators:
object keys are sorted before serialization, at every nesting level. -/
def dumpJ : JValue → String
  | JValue.null => "null"
  | JValue.bool b => if b then "true" else "false"
  | JValue.num n => toString n
  | JValue.str s => jsonQuote s
  | JValue.arr l => "[" ++ ", ".intercalate (dumpJList l) ++ "]"
  | JValue.obj o =>
      "\x7b" ++ ", ".intercalate
        (((dumpJEntries o).insertionSort keyOrder).map
          (fun e => jsonQuote e.1 ++ ": " ++ e.2)) ++ "\x7d"

/-- Serialize each element of a JSON array. -/
def dumpJList : List JValue → List String
  | [] => []
  | v :: vs => dumpJ v :: dumpJList vs

/-- Serialize the value of each object entry, keeping its key. -/
def dumpJEntries : List (String × JValue) → List (String × String)
  | [] => []
  | (k, v) :: rest => (k, dumpJ v) :: dumpJEntries rest
end

/-- Models ResultCache._get_cache_key (result_cache.py) and the
identically-coded FallbackCacheHandler._get_cache_key (fallback_cache.py):
the sha256 hexdigest of the string tool_name, a colon, and
json.dumps(parameters, sort_keys=True).  The hexdigest is the
uninterpreted pure function digest. -/
def get_cache_key (digest : String → String) (tool_name : String)
    (parameters : List (String × JValue)) : String :=
  digest (tool_name ++ ":" ++ dumpJ (JValue.obj parameters))

/-- A tool outcome (the result dict of the hook input).  isError, error
and content model the presence and value of the keys of the same names;
content items are modelled as dicts carrying a string text field, the
only item shape all three classifiers inspect. -/
structure ToolResult where
  isError : Option Bool
  error : Option String
  content : Option (List String)
deriving DecidableEq

/-- Python repr of a bool, as it appears inside str() of a dict. -/
def pyBoolRepr (b : Bool) : String := if b then "True" else "False"

/-- A single-quote character, built without an apostrophe literal. -/
def singleQuote : String := String.singleton (Char.ofNat 39)

/-- Python repr of a string (single quotes; escaping not modelled). -/
def pyStrRepr (s : String) : String := singleQuote ++ s ++ singleQuote

/-- Python repr of one content item dict. -/
def pyItemRepr (t : String) : String :=
  "\x7b" ++ pyStrRepr "text" ++ ": " ++ pyStrRepr t ++ "\x7d"

/-- Python repr of the content list. -/
def pyListRepr (l : List String) : String :=
  "[" ++ ", ".intercalate (l.map pyItemRepr) ++ "]"

/-- Models str(result) for the modelled result dict, with the keys in
the order isError, error, content; used by the timeout check of
AutoRetryHandler._is_failure. -/
def pyStr (r : ToolResult) : String :=
  let fields :=
    (match r.isError with
      | some b => [pyStrRepr "isError" ++ ": " ++ pyBoolRepr b]
      | none => []) ++
    (match r.error with
      | some e => [pyStrRepr "error" ++ ": " ++ pyStrRepr e]
      | none => []) ++
    (match r.content with
      | some l => [pyStrRepr "content" ++ ": " ++ pyListRepr l]
      | none => [])
  "\x7b" ++ ", ".intercalate fields ++ "\x7d"

/-- The keyword scan shared by rule 3 of all three classifiers: the
lowered item text contains error or failed. -/
def hasErrorKeyword (text : String) : Bool :=
  pyIn "error" (strToLower text) || pyIn "failed" (strToLower text)

namespace AutoRetryHandler

/-- AutoRetryHandler._is_failure (auto_retry.py, lines 50-83): rule 1
explicit error flag, rule 2 empty content, rule 3 error keyword in an
item text, rule 4 timeout in str(result).lower(). -/
def _is_failure (result : ToolResult) : Bool × String :=
  if result.isError.getD false then
    (true, "Error flag: " ++ result.error.getD "Unknown error")
  else
    let content := result.content.getD []
    if content.isEmpty then
      (true, "Empty content returned")
    else
      match content.find? hasErrorKeyword with
      | some text => (true, "Error in response: " ++ strTake text 100)
      | none =>
          if pyIn "timeout" (strToLower (pyStr result)) then
            (true, "Timeout detected")
          else
            (false, "")

end AutoRetryHandler

namespace FallbackCacheHandler

/-- FallbackCacheHandler._is_failure (fallback_cache.py, lines 53-81):
rules 1-3 only; there is no timeout rule here. -/
def _is_failure (result : ToolResult) : Bool :=
  if result.isError.getD false then
    true
  else
    let content := result.content.getD []
    if content.isEmpty then
      true
    else
      content.any hasErrorKeyword

end FallbackCacheHandler

namespace ErrorNotifier

/-- ErrorNotifier._is_failure (error_notifier.py, lines 67-95):
rules 1-3 only, identical to the fallback classifier. -/
def _is_failure (result : ToolResult) : Bool :=
  if result.isError.getD false then
    true
  else
    let content := result.content.getD []
    if content.isEmpty then
      true
    else
      content.any hasErrorKeyword

end ErrorNotifier

/-- One stored cache entry (the JSON document result_cache.py writes to
cache/<fingerprint>.json): tool name, argument snapshot, the cached
payload, and the creation timestamp (seconds). -/
structure CacheEntry where
  tool : String
  parameters : List (String × JValue)
  result : ToolResult
  cached_at : Int

/-- The cache directory: one entry per fingerprint (file name). -/
abbrev CacheState := List (String × CacheEntry)

/-- Delete the file of the given fingerprint (models Path.unlink, and
also the effect of overwriting before a fresh write). -/
def eraseEntry (st : CacheState) (key : String) : CacheState :=
  st.filter (fun p => !(p.1 == key))

namespace ResultCache

/-- Default TTL (result_cache.py main: ttl_minutes=60), in seconds. -/
def default_ttl : Int := 60 * 60

/-- ResultCache.get (result_cache.py, lines 46-78): returns the cached
payload if present and not expired; an entry found with
now - cached_at > ttl is deleted and reported as a miss. -/
def get (digest : String → String) (ttl : Int) (st : CacheState)
    (tool_name : String) (parameters : List (String × JValue)) (now : Int) :
    Option ToolResult × CacheState :=
  let key := get_cache_key digest tool_name parameters
  match st.lookup key with
  | none => (none, st)
  | some e =>
      if now - e.cached_at > ttl then
        (none, eraseEntry st key)
      else
        (some e.result, st)

/-- ResultCache.set (result_cache.py, lines 80-105): writes or
overwrites the entry keyed by the fingerprint, stamped with now. -/
def set (digest : String → String) (st : CacheState)
    (tool_name : String) (parameters : List (String × JValue))
    (result : ToolResult) (now : Int) : CacheState :=
  (get_cache_key digest tool_name parameters,
    { tool := tool_name, parameters := parameters,
      result := result, cached_at := now }) ::
    eraseEntry st (get_cache_key digest tool_name parameters)

end ResultCache

/-- The cacheable tool list of should_cache_tool (result_cache.py). -/
def cacheable_tools : List String :=
  ["nsip_get_animal", "nsip_search_by_lpn", "nsip_get_lineage", "nsip_get_progeny"]

/-- should_cache_tool (result_cache.py, lines 127-140): strips the
mcp__nsip__ prefix and checks membership in the cacheable list. -/
def should_cache_tool (tool_name : String) : Bool :=
  let base_name := strReplace tool_name "mcp__nsip__" ""
  cacheable_tools.contains base_name

/-- The JSON output of the result_cache hook (continue flag plus the
metadata fields the claims inspect). -/
structure ResultCacheMainOut where
  continue_flag : Bool
  cached : Bool
  reason : Option String
deriving DecidableEq

/-- main of result_cache.py (lines 143-175): caches the result only for
cacheable tools whose result has no truthy isError flag. -/
def resultCacheMain (digest : String → String) (tool_name : String)
    (parameters : List (String × JValue)) (tool_result : ToolResult)
    (st : CacheState) (now : Int) : ResultCacheMainOut × CacheState :=
  if should_cache_tool tool_name && !(tool_result.isError.getD false) then
    ({ continue_flag := true, cached := true, reason := none },
      ResultCache.set digest st tool_name parameters tool_result now)
  else
    ({ continue_flag := true, cached := false,
       reason := some "Not cacheable or error result" }, st)

/-- One line of the retry audit log retry_log.jsonl (timestamps and the
parameters snapshot are not inspected by any claim and are omitted). -/
structure RetryLogEntry where
  tool : String
  attempt : Option Nat
  backoff_seconds : Option Nat
  status : String
deriving DecidableEq

/-- The metadata record returned by AutoRetryHandler.handle_failure. -/
structure RetryMeta where
  retry_needed : Bool
  reason : Option String
  retry_count : Option Nat
  status : Option String
  context_message : Option String
deriving DecidableEq

namespace AutoRetryHandler

/-- Retry configuration (auto_retry.py, constructor): max_retries. -/
def max_retries : Nat := 3

/-- Retry configuration (auto_retry.py, constructor): backoff delays. -/
def backoff_delays : List Nat := [1, 2, 4]

/-- AutoRetryHandler._execute_retry (auto_retry.py, lines 85-126):
sleeps for the backoff (time passage is not modelled), appends one
retrying log entry whose backoff_seconds is the schedule entry of the
attempt (0 past the end of the schedule), and returns None: in a hook
context the tool cannot actually be re-invoked. -/
def _execute_retry (delays : List Nat) (tool_name : String) (attempt : Nat) :
    Option ToolResult × RetryLogEntry :=
  (none,
   { tool := tool_name, attempt := some attempt,
     backoff_seconds :=
       some (if attempt ≤ delays.length then delays.getD (attempt - 1) 0 else 0),
     status := "retrying" })

/-- The retry loop of handle_failure over the remaining attempt numbers:
returns the accumulated retry_count, the appended log entries, and the
attempt at which a supplied fresh outcome classified as success (always
none here, since _execute_retry returns None). -/
def retryLoop (delays : List Nat) (tool_name : String) :
    List Nat → Nat × List RetryLogEntry × Option Nat
  | [] => (0, [], none)
  | attempt :: rest =>
      let step := _execute_retry delays tool_name attempt
      match step.1 with
      | some rr =>
          if (_is_failure rr).1 then
            let t := retryLoop delays tool_name rest
            (t.1 + 1, step.2 :: t.2.1, t.2.2)
          else
            (1,
             [step.2,
              { tool := tool_name, attempt := some attempt,
                backoff_seconds := none, status := "retry_succeeded" }],
             some attempt)
      | none =>
          let t := retryLoop delays tool_name rest
          (t.1 + 1, step.2 :: t.2.1, t.2.2)

/-- AutoRetryHandler.handle_failure (auto_retry.py, lines 128-206):
classifies the result; on failure logs the initial failure, runs the
attempt loop, and reports succeeded or exhausted with the count. -/
def handle_failure (maxR : Nat) (delays : List Nat) (tool_name : String)
    (result : ToolResult) : RetryMeta × List RetryLogEntry :=
  let fr := _is_failure result
  if !fr.1 then
    ({ retry_needed := false, reason := some "No failure detected",
       retry_count := none, status := none, context_message := none }, [])
  else
    let initLog : RetryLogEntry :=
      { tool := tool_name, attempt := none, backoff_seconds := none,
        status := "initial_failure" }
    let t := retryLoop delays tool_name (List.range' 1 maxR)
    match t.2.2 with
    | some _ =>
        ({ retry_needed := true, reason := none, retry_count := some t.1,
           status := some "succeeded",
           context_message :=
             some ("Note: API call succeeded after " ++ toString t.1 ++
               " retry attempt(s)") },
         initLog :: t.2.1)
    | none =>
        let exLog : RetryLogEntry :=
          { tool := tool_name, attempt := none, backoff_seconds := none,
            status := "retries_exhausted" }
        ({ retry_needed := true, reason := none, retry_count := some t.1,
           status := some "exhausted",
           context_message :=
             some ("Warning: API call failed after " ++ toString t.1 ++
               " retry attempt(s). Using original result.") },
         initLog :: (t.2.1 ++ [exLog]))

end AutoRetryHandler

/-- One line of the fallback audit log fallback_log.jsonl (only the
fields the claims inspect). -/
structure FallbackLogEntry where
  tool : String
  status : String
deriving DecidableEq

/-- The metadata record returned by
FallbackCacheHandler.handle_fallback. -/
structure FallbackMeta where
  fallback_used : Bool
  reason : Option String
  cached_at : Option Int
  cache_age : Option String
  cached_result : Option ToolResult
  context_message : Option String

namespace FallbackCacheHandler

/-- FallbackCacheHandler._load_cached_data (fallback_cache.py, lines
110-134): loads the entry for the fingerprint if its file exists; there
is no TTL check here. -/
def _load_cached_data (digest : String → String) (st : CacheState)
    (tool_name : String) (parameters : List (String × JValue)) :
    Option CacheEntry :=
  st.lookup (get_cache_key digest tool_name parameters)

/-- The cache age string of handle_fallback (truncating division,
identical to the Python int() conversions on the non-negative ages
arising here). -/
def age_string (age_seconds : Int) : String :=
  let age_minutes := age_seconds / 60
  let age_hours := age_minutes / 60
  if age_hours > 0 then toString age_hours ++ " hour(s) old"
  else toString age_minutes ++ " minute(s) old"

/-- FallbackCacheHandler.handle_fallback (fallback_cache.py, lines
136-207): on a classified failure, serves the stored entry for the same
fingerprint if one exists (whatever its age), else reports that no
cached data is available. -/
def handle_fallback (digest : String → String) (st : CacheState)
    (tool_name : String) (parameters : List (String × JValue))
    (result : ToolResult) (now : Int) :
    FallbackMeta × List FallbackLogEntry :=
  if !(_is_failure result) then
    ({ fallback_used := false, reason := some "No failure detected",
       cached_at := none, cache_age := none, cached_result := none,
       context_message := none }, [])
  else
    match _load_cached_data digest st tool_name parameters with
    | none =>
        ({ fallback_used := false, reason := some "No cached data available",
           cached_at := none, cache_age := none, cached_result := none,
           context_message := none },
         [{ tool := tool_name, status := "no_cache_available" }])
    | some e =>
        let age := age_string (now - e.cached_at)
        ({ fallback_used := true, reason := none,
           cached_at := some e.cached_at, cache_age := some age,
           cached_result := some e.result,
           context_message :=
             some ("Warning: API call failed. Using cached data from " ++
               toString e.cached_at ++ " (" ++ age ++
               "). Data may be outdated.") },
         [{ tool := tool_name, status := "fallback_used" }])

end FallbackCacheHandler

/-- One failure record of the tracker state (error_notifier.py). -/
structure FailureRecord where
  timestamp : Int
  tool : String
  error_reason : String
deriving DecidableEq

/-- The persisted tracker state error_tracker.json. -/
structure TrackerState where
  failures : List FailureRecord
  last_alert : Option Int
deriving DecidableEq

/-- One emitted alert file ALERT_<timestamp>.txt (identified by its
creation time and the failure list it renders). -/
structure Alert where
  created_at : Int
  failures : List FailureRecord
deriving DecidableEq

/-- The metadata record returned by ErrorNotifier.track_and_notify. -/
structure NotifyMeta where
  error_tracked : Bool
  reason : Option String
  recent_failure_count : Option Nat
  alert_created : Option Bool
  threshold : Option Nat
deriving DecidableEq

namespace ErrorNotifier

/-- Alert threshold (error_notifier.py, constructor). -/
def failure_threshold : Nat := 3

/-- Sliding window (error_notifier.py, constructor): 5 minutes, in
seconds. -/
def time_window : Int := 5 * 60

/-- Alert cooldown (error_notifier.py, track_and_notify): 10 minutes,
in seconds. -/
def alert_cooldown : Int := 10 * 60

/-- ErrorNotifier._clean_old_failures (error_notifier.py, lines
97-118): keeps the records strictly newer than now minus the window. -/
def _clean_old_failures (now : Int) (failures : List FailureRecord) :
    List FailureRecord :=
  failures.filter (fun f => decide (f.timestamp > now - time_window))

/-- ErrorNotifier.track_and_notify (error_notifier.py, lines 200-267):
on a classified failure, appends a record, drops records outside the
window, alerts when the count reaches the threshold unless the last
alert was less than the cooldown ago, and persists the state.  Returns
the metadata, the persisted state, and the newly created alert files. -/
def track_and_notify (tool_name : String) (result : ToolResult)
    (st : TrackerState) (now : Int) :
    NotifyMeta × TrackerState × List Alert :=
  if !(_is_failure result) then
    ({ error_tracked := false, reason := some "No failure detected",
       recent_failure_count := none, alert_created := none,
       threshold := none }, st, [])
  else
    let record : FailureRecord :=
      { timestamp := now, tool := tool_name,
        error_reason := result.error.getD "Unknown error" }
    let failures := _clean_old_failures now (st.failures ++ [record])
    let count := failures.length
    let shouldAlert := decide (count ≥ failure_threshold)
    let shouldAlert :=
      match st.last_alert with
      | some t => if now - t < alert_cooldown then false else shouldAlert
      | none => shouldAlert
    if shouldAlert then
      ({ error_tracked := true, reason := none,
         recent_failure_count := some count, alert_created := some true,
         threshold := some failure_threshold },
       { failures := failures, last_alert := some now },
       [{ created_at := now, failures := failures }])
    else
      ({ error_tracked := true, reason := none,
         recent_failure_count := some count, alert_created := some false,
         threshold := some failure_threshold },
       { failures := failures, last_alert := st.last_alert }, [])

end ErrorNotifier

/-- The JSON output of the auto_retry hook. -/
structure AutoRetryMainOut where
  continue_flag : Bool
  retry_handled : Bool
  reason : Option String
  retry_meta : Option RetryMeta
  context : Option String
deriving DecidableEq

/-- main of auto_retry.py (lines 209-262): tools without the
mcp__nsip__ prefix are not handled and nothing is logged. -/
def autoRetryMain (tool_name : String) (result : ToolResult)
    (retryLog : List RetryLogEntry) :
    AutoRetryMainOut × List RetryLogEntry :=
  if !(strStartsWith tool_name "mcp__nsip__") then
    ({ continue_flag := true, retry_handled := false,
       reason := some "Not an NSIP tool", retry_meta := none,
       context := none }, retryLog)
  else
    let hm := AutoRetryHandler.handle_failure AutoRetryHandler.max_retries
      AutoRetryHandler.backoff_delays tool_name result
    ({ continue_flag := true, retry_handled := true, reason := none,
       retry_meta := some hm.1, context := hm.1.context_message },
     retryLog ++ hm.2)

/-- The JSON output of the fallback_cache hook. -/
structure FallbackMainOut where
  continue_flag : Bool
  fallback_checked : Bool
  reason : Option String
  context : Option String

/-- main of fallback_cache.py (lines 210-247): tools without the
mcp__nsip__ prefix are not handled; the cache is never written here. -/
def fallbackMain (digest : String → String) (tool_name : String)
    (parameters : List (String × JValue)) (result : ToolResult)
    (cache : CacheState) (fbLog : List FallbackLogEntry) (now : Int) :
    FallbackMainOut × CacheState × List FallbackLogEntry :=
  if !(strStartsWith tool_name "mcp__nsip__") then
    ({ continue_flag := true, fallback_checked := false,
       reason := some "Not an NSIP tool", context := none },
     cache, fbLog)
  else
    let hm := FallbackCacheHandler.handle_fallback digest cache tool_name
      parameters result now
    ({ continue_flag := true, fallback_checked := true,
       reason := hm.1.reason, context := hm.1.context_message },
     cache, fbLog ++ hm.2)

/-- The JSON output of the error_notifier hook. -/
structure NotifierMainOut where
  continue_flag : Bool
  metadata : NotifyMeta
  context_present : Bool
deriving DecidableEq

/-- main of error_notifier.py (lines 270-318): tools without the
mcp__nsip__ prefix are not handled and the tracker state and alert
files are untouched. -/
def errorNotifierMain (tool_name : String) (result : ToolResult)
    (st : TrackerState) (now : Int) :
    NotifierMainOut × TrackerState × List Alert :=
  if !(strStartsWith tool_name "mcp__nsip__") then
    ({ continue_flag := true,
       metadata :=
         { error_tracked := false, reason := some "Not an NSIP tool",
           recent_failure_count := none, alert_created := none,
           threshold := none },
       context_present := false }, st, [])
  else
    let tm := ErrorNotifier.track_and_notify tool_name result st now
    ({ continue_flag := true, metadata := tm.1,
       context_present := tm.1.alert_created.getD false }, tm.2.1, tm.2.2)

/-! Helper lemmas shared by the claim theorems. -/

theorem dumpJEntries_eq_map (l : List (String × JValue)) :
    dumpJEntries l = l.map (fun p => (p.1, dumpJ p.2)) := by
  induction l with
  | nil => rfl
  | cons p rest ih => cases p; simp [dumpJEntries, ih]

theorem keyOrder_antisymm_fst {a b : String × String}
    (h1 : keyOrder a b) (h2 : keyOrder b a) : a.1 = b.1 := by
  have := charListLe_antisymm a.1.data b.1.data h1 h2
  cases a1 : a.1; cases b1 : b.1
  simp_all

theorem sorted_strict_of_sorted_nodup {l : List (String × String)}
    (hs : List.Sorted keyOrder l) (hnd : (l.map Prod.fst).Nodup) :
    l.Pairwise (fun a b => keyOrder a b ∧ a.1 ≠ b.1) := by
  have hne : l.Pairwise (fun a b => a.1 ≠ b.1) := by
    rw [List.Nodup, List.pairwise_map] at hnd
    exact hnd
  exact hs.and hne

theorem insertionSort_key_eq_of_perm {l1 l2 : List (String × String)}
    (hp : l1.Perm l2) (hnd : (l1.map Prod.fst).Nodup) :
    l1.insertionSort keyOrder = l2.insertionSort keyOrder := by
  have hperm : (l1.insertionSort keyOrder).Perm (l2.insertionSort keyOrder) :=
    (List.perm_insertionSort keyOrder l1).trans
      (hp.trans (List.perm_insertionSort keyOrder l2).symm)
  have hnd1 : ((l1.insertionSort keyOrder).map Prod.fst).Nodup :=
    (((List.perm_insertionSort keyOrder l1).map Prod.fst).nodup_iff).mpr hnd
  have hnd2 : ((l2.insertionSort keyOrder).map Prod.fst).Nodup :=
    ((hperm.map Prod.fst).nodup_iff).mp hnd1
  haveI : IsAntisymm (String × String) (fun a b => keyOrder a b ∧ a.1 ≠ b.1) :=
    ⟨fun a b h1 h2 => absurd (keyOrder_antisymm_fst h1.1 h2.1) h1.2⟩
  exact List.eq_of_perm_of_sorted hperm
    (sorted_strict_of_sorted_nodup (List.sorted_insertionSort keyOrder l1) hnd1)
    (sorted_strict_of_sorted_nodup (List.sorted_insertionSort keyOrder l2) hnd2)

theorem lookup_eraseEntry (st : CacheState) (key : String) :
    (eraseEntry st key).lookup key = none := by
  induction st with
  | nil => rfl
  | cons p rest ih =>
      by_cases h : p.1 = key
      · simp [eraseEntry, List.filter_cons, h] at ih ⊢
        exact ih
      · simp only [eraseEntry, List.filter_cons] at ih ⊢
        have hb : (p.1 == key) = false := by simp [beq_iff_eq, h]
        simp only [hb, Bool.not_false, if_true]
        rw [List.lookup_cons]
        have hb2 : (key == p.1) = false := by simp [beq_iff_eq, Ne.symm h]
        simp [hb2, ih]

theorem track_step_none (tool_name : String) (r : ToolResult) (st : TrackerState)
    (now : Int) (hf : ErrorNotifier._is_failure r = true) (hn : st.last_alert = none) :
    ErrorNotifier.track_and_notify tool_name r st now =
      (let failures := ErrorNotifier._clean_old_failures now (st.failures ++
        [{ timestamp := now, tool := tool_name,
           error_reason := r.error.getD "Unknown error" }])
       if failures.length ≥ ErrorNotifier.failure_threshold then
        ({ error_tracked := true, reason := none,
           recent_failure_count := some failures.length, alert_created := some true,
           threshold := some ErrorNotifier.failure_threshold },
         { failures := failures, last_alert := some now },
         [{ created_at := now, failures := failures }])
       else
        ({ error_tracked := true, reason := none,
           recent_failure_count := some failures.length, alert_created := some false,
           threshold := some ErrorNotifier.failure_threshold },
         { failures := failures, last_alert := none }, [])) := by
  unfold ErrorNotifier.track_and_notify
  simp only [hf, Bool.not_true, Bool.false_eq_true, if_false, hn]
  by_cases hc : (ErrorNotifier._clean_old_failures now (st.failures ++
        [{ timestamp := now, tool := tool_name,
           error_reason := r.error.getD "Unknown error" }])).length ≥
      ErrorNotifier.failure_threshold <;>
    simp [hc, hn]

theorem track_step_cooldown (tool_name : String) (r : ToolResult) (st : TrackerState)
    (now ta : Int) (hf : ErrorNotifier._is_failure r = true)
    (hl : st.last_alert = some ta) (hcd : now - ta < ErrorNotifier.alert_cooldown) :
    ErrorNotifier.track_and_notify tool_name r st now =
      (let failures := ErrorNotifier._clean_old_failures now (st.failures ++
        [{ timestamp := now, tool := tool_name,
           error_reason := r.error.getD "Unknown error" }])
       ({ error_tracked := true, reason := none,
          recent_failure_count := some failures.length, alert_created := some false,
          threshold := some ErrorNotifier.failure_threshold },
        { failures := failures, last_alert := some ta }, [])) := by
  unfold ErrorNotifier.track_and_notify
  simp [hf, hl, hcd]

theorem track_step_after_cooldown (tool_name : String) (r : ToolResult)
    (st : TrackerState) (now ta : Int) (hf : ErrorNotifier._is_failure r = true)
    (hl : st.last_alert = some ta) (hcd : now - ta ≥ ErrorNotifier.alert_cooldown)
    (hth : (ErrorNotifier._clean_old_failures now (st.failures ++
        [{ timestamp := now, tool := tool_name,
           error_reason := r.error.getD "Unknown error" }])).length ≥
      ErrorNotifier.failure_threshold) :
    ErrorNotifier.track_and_notify tool_name r st now =
      (let failures := ErrorNotifier._clean_old_failures now (st.failures ++
        [{ timestamp := now, tool := tool_name,
           error_reason := r.error.getD "Unknown error" }])
       ({ error_tracked := true, reason := none,
          recent_failure_count := some failures.length, alert_created := some true,
          threshold := some ErrorNotifier.failure_threshold },
        { failures := failures, last_alert := some now },
        [{ created_at := now, failures := failures }])) := by
  unfold ErrorNotifier.track_and_notify
  have hnot : ¬(now - ta < ErrorNotifier.alert_cooldown) := by omega
  simp [hf, hl, hnot, hth]

/-! The claim theorems. -/

/-- C1, counterexample: on the outcome whose only failure signal is the
word timeout in its textual representation (content list with the single
item text connection timeout), the Retry Coordinator classifier reports
failure while the Fallback Supplier and Failure Tracker classifiers
report success, so the three consumers do not see the same verdict. -/
theorem C1_counterexample :
    (AutoRetryHandler._is_failure ⟨none, none, some ["connection timeout"]⟩).1 = true ∧
    FallbackCacheHandler._is_failure ⟨none, none, some ["connection timeout"]⟩ = false ∧
    ErrorNotifier._is_failure ⟨none, none, some ["connection timeout"]⟩ = false := by
  refine ⟨by decide, by decide, by decide⟩

/-- C1, amended: the Fallback Supplier and Failure Tracker classifiers
agree on every outcome; the Retry Coordinator classifier agrees with
them exactly up to the timeout rule: its verdict is their verdict OR the
timeout test on the textual representation.  The three verdicts
therefore coincide on every outcome except those matching only
classification rule 4, where the Retry Coordinator alone reports
failure. -/
theorem C1_amended_classifier_agreement (r : ToolResult) :
    ErrorNotifier._is_failure r = FallbackCacheHandler._is_failure r ∧
    (AutoRetryHandler._is_failure r).1 =
      (FallbackCacheHandler._is_failure r || pyIn "timeout" (strToLower (pyStr r))) := by
  refine ⟨rfl, ?_⟩
  unfold AutoRetryHandler._is_failure FallbackCacheHandler._is_failure
  by_cases h1 : r.isError.getD false
  · simp [h1]
  · simp only [h1, if_false, Bool.false_eq_true]
    by_cases h2 : (r.content.getD []).isEmpty
    · simp [h2]
    · simp only [h2, if_false, Bool.false_eq_true]
      cases h3 : (r.content.getD []).find? hasErrorKeyword with
      | some t =>
          have ha : (r.content.getD []).any hasErrorKeyword = true :=
            List.any_eq_true.mpr ⟨t, List.mem_of_find?_eq_some h3, List.find?_some h3⟩
          simp [h3, ha]
      | none =>
          have ha : (r.content.getD []).any hasErrorKeyword = false := by
            rw [Bool.eq_false_iff]
            intro hc
            rcases List.any_eq_true.mp hc with ⟨t, ht, hpt⟩
            rcases List.find?_isSome.mpr ⟨t, ht, hpt⟩ |> Option.isSome_iff_exists.mp with ⟨u, hu⟩
            rw [h3] at hu
            exact Option.noConfusion hu
          simp only [h3, ha, Bool.false_or]
          by_cases h4 : pyIn "timeout" (strToLower (pyStr r)) <;> simp [h4]

/-- C2, counterexample: the tool mcp__nsip__nsip_list_breeds is not in
the cacheable list, so a call to it whose outcome is classified as
success is not written to the Cache Store: the hook reports cached
false and the entry keyed by the fingerprint stays absent. -/
theorem C2_counterexample :
    (AutoRetryHandler._is_failure ⟨none, none, some ["ok"]⟩).1 = false ∧
    (resultCacheMain id "mcp__nsip__nsip_list_breeds" []
      ⟨none, none, some ["ok"]⟩ [] 0).1.cached = false ∧
    (resultCacheMain id "mcp__nsip__nsip_list_breeds" []
      ⟨none, none, some ["ok"]⟩ [] 0).2.lookup
      (get_cache_key id "mcp__nsip__nsip_list_breeds" []) = none := by
  refine ⟨by decide, ?_, ?_⟩ <;> rfl

/-- C2, amended: write-through holds only for the four cacheable tools
(should_cache_tool true): for every such tool, every argument mapping
and every outcome classified as success by the Failure Classifier, the
hook stores the new payload under the fingerprint of the call. -/
theorem C2_amended_write_through (digest : String → String) (tool_name : String)
    (parameters : List (String × JValue)) (r : ToolResult)
    (st : CacheState) (now : Int)
    (hcacheable : should_cache_tool tool_name = true)
    (hsuccess : (AutoRetryHandler._is_failure r).1 = false) :
    (resultCacheMain digest tool_name parameters r st now).1.cached = true ∧
    (resultCacheMain digest tool_name parameters r st now).2.lookup
        (get_cache_key digest tool_name parameters) =
      some { tool := tool_name, parameters := parameters, result := r,
             cached_at := now } := by
  have hie : r.isError.getD false = false := by
    by_contra hne
    have hie' : r.isError.getD false = true := by
      cases hb : r.isError.getD false
      · exact absurd hb hne
      · rfl
    unfold AutoRetryHandler._is_failure at hsuccess
    simp [hie'] at hsuccess
  unfold resultCacheMain
  simp only [hcacheable, hie, Bool.not_false, Bool.and_self, if_true]
  unfold ResultCache.set
  simp [List.lookup_cons]

/-- Witness for C2, amended: a successful call to the cacheable tool
mcp__nsip__nsip_get_animal with argument id X1 is stored under its
fingerprint. -/
theorem C2_amended_write_through_witness :
    (resultCacheMain id "mcp__nsip__nsip_get_animal" [("id", JValue.str "X1")]
      ⟨none, none, some ["animal data"]⟩ [] 5).1.cached = true ∧
    (resultCacheMain id "mcp__nsip__nsip_get_animal" [("id", JValue.str "X1")]
      ⟨none, none, some ["animal data"]⟩ [] 5).2.lookup
        (get_cache_key id "mcp__nsip__nsip_get_animal" [("id", JValue.str "X1")]) =
      some { tool := "mcp__nsip__nsip_get_animal",
             parameters := [("id", JValue.str "X1")],
             result := ⟨none, none, some ["animal data"]⟩, cached_at := 5 } :=
  C2_amended_write_through id "mcp__nsip__nsip_get_animal"
    [("id", JValue.str "X1")] ⟨none, none, some ["animal data"]⟩ [] 5
    (by decide) (by decide)

/-- C3: cache round-trip and expiry.  First part: for every store, tool,
argument mapping, payload and non-negative TTL, a set followed
immediately by a get of the same call returns the payload and leaves the
store as written.  Second part: for every stored entry whose age exceeds
the TTL, get returns absent and deletes the backing entry (a later
lookup of the fingerprint finds nothing). -/
theorem C3_cache_roundtrip_and_expiry :
    (∀ (digest : String → String) (ttl : Int) (st : CacheState)
      (tool_name : String) (parameters : List (String × JValue))
      (payload : ToolResult) (t : Int), 0 ≤ ttl →
      ResultCache.get digest ttl
        (ResultCache.set digest st tool_name parameters payload t)
        tool_name parameters t =
      (some payload, ResultCache.set digest st tool_name parameters payload t)) ∧
    (∀ (digest : String → String) (ttl : Int) (st : CacheState)
      (tool_name : String) (parameters : List (String × JValue))
      (now : Int) (e : CacheEntry),
      st.lookup (get_cache_key digest tool_name parameters) = some e →
      now - e.cached_at > ttl →
      ResultCache.get digest ttl st tool_name parameters now =
        (none, eraseEntry st (get_cache_key digest tool_name parameters)) ∧
      (ResultCache.get digest ttl st tool_name parameters now).2.lookup
        (get_cache_key digest tool_name parameters) = none) := by
  constructor
  · intro digest ttl st tool_name parameters payload t h
    unfold ResultCache.get ResultCache.set
    simp only [List.lookup_cons, beq_self_eq_true, if_true]
    have hc : ¬(t - t > ttl) := by omega
    simp [hc, h]
  · intro digest ttl st tool_name parameters now e hl hexp
    unfold ResultCache.get
    simp only [hl]
    simp [hexp, lookup_eraseEntry]

/-- Witness for C3: with the default 60-minute TTL, a set at time 0 is
read back at time 0, and an entry stored at time 0 is purged by a get at
time 7200. -/
theorem C3_cache_roundtrip_and_expiry_witness :
    (ResultCache.get id ResultCache.default_ttl
      (ResultCache.set id [] "mcp__nsip__nsip_get_animal" [("id", JValue.str "X1")]
        ⟨none, none, some ["animal data"]⟩ 0)
      "mcp__nsip__nsip_get_animal" [("id", JValue.str "X1")] 0 =
      (some ⟨none, none, some ["animal data"]⟩,
       ResultCache.set id [] "mcp__nsip__nsip_get_animal" [("id", JValue.str "X1")]
        ⟨none, none, some ["animal data"]⟩ 0)) ∧
    (ResultCache.get id ResultCache.default_ttl
      [(get_cache_key id "t" [], (⟨"t", [], ⟨none, none, none⟩, 0⟩ : CacheEntry))]
      "t" [] 7200 =
        (none, eraseEntry
          [(get_cache_key id "t" [], (⟨"t", [], ⟨none, none, none⟩, 0⟩ : CacheEntry))]
          (get_cache_key id "t" [])) ∧
      (ResultCache.get id ResultCache.default_ttl
        [(get_cache_key id "t" [], (⟨"t", [], ⟨none, none, none⟩, 0⟩ : CacheEntry))]
        "t" [] 7200).2.lookup (get_cache_key id "t" []) = none) :=
  ⟨C3_cache_roundtrip_and_expiry.1 id ResultCache.default_ttl []
      "mcp__nsip__nsip_get_animal" [("id", JValue.str "X1")]
      ⟨none, none, some ["animal data"]⟩ 0 (by decide),
   C3_cache_roundtrip_and_expiry.2 id ResultCache.default_ttl
      [(get_cache_key id "t" [], (⟨"t", [], ⟨none, none, none⟩, 0⟩ : CacheEntry))]
      "t" [] 7200 ⟨"t", [], ⟨none, none, none⟩, 0⟩
      (by rfl) (by decide)⟩

/-- C4: for every tool and every outcome the Retry Coordinator
classifies as a failure, handle_failure with the default configuration
(max_retries 3, backoff schedule 1, 2, 4) returns status exhausted with
retry_count 3 after logging exactly three retrying records whose backoff
durations are 1, 2 and 4 seconds in that order. -/
theorem C4_retry_exhaustion (tool_name : String) (r : ToolResult)
    (h : (AutoRetryHandler._is_failure r).1 = true) :
    ((AutoRetryHandler.handle_failure AutoRetryHandler.max_retries
        AutoRetryHandler.backoff_delays tool_name r).1.status = some "exhausted") ∧
    ((AutoRetryHandler.handle_failure AutoRetryHandler.max_retries
        AutoRetryHandler.backoff_delays tool_name r).1.retry_count = some 3) ∧
    (((AutoRetryHandler.handle_failure AutoRetryHandler.max_retries
        AutoRetryHandler.backoff_delays tool_name r).2.filter
        (fun e => e.status == "retrying")).map (fun e => e.backoff_seconds) =
      [some 1, some 2, some 4]) := by
  unfold AutoRetryHandler.handle_failure
  simp only [h, Bool.not_true, Bool.false_eq_true, if_false]
  simp [AutoRetryHandler.max_retries, AutoRetryHandler.backoff_delays,
    AutoRetryHandler.retryLoop, AutoRetryHandler._execute_retry, List.range']

/-- Witness for C4: a result with the explicit error flag exhausts the
retries with the 1, 2, 4 backoff schedule. -/
theorem C4_retry_exhaustion_witness :
    ((AutoRetryHandler.handle_failure AutoRetryHandler.max_retries
        AutoRetryHandler.backoff_delays "mcp__nsip__nsip_get_animal"
        ⟨some true, some "boom", none⟩).1.status = some "exhausted") ∧
    ((AutoRetryHandler.handle_failure AutoRetryHandler.max_retries
        AutoRetryHandler.backoff_delays "mcp__nsip__nsip_get_animal"
        ⟨some true, some "boom", none⟩).1.retry_count = some 3) ∧
    (((AutoRetryHandler.handle_failure AutoRetryHandler.max_retries
        AutoRetryHandler.backoff_delays "mcp__nsip__nsip_get_animal"
        ⟨some true, some "boom", none⟩).2.filter
        (fun e => e.status == "retrying")).map (fun e => e.backoff_seconds) =
      [some 1, some 2, some 4]) :=
  C4_retry_exhaustion "mcp__nsip__nsip_get_animal" ⟨some true, some "boom", none⟩
    (by decide)

/-- C5: alert threshold and cooldown with the defaults (window 5
minutes, threshold 3, cooldown 10 minutes).  Part 1: starting from the
fresh tracker state, three failures (of any tools) whose times all fall
within one window produce no alert on the first two and exactly one
alert on the third, which also sets last_alert_time.  Part 2: any
further failure less than 10 minutes after last_alert_time produces no
alert.  Part 3: a failure at least 10 minutes after last_alert_time
with the threshold still met produces an alert and resets
last_alert_time. -/
theorem C5_alert_threshold_and_cooldown :
    (∀ (tool1 tool2 tool3 : String) (r1 r2 r3 : ToolResult) (t1 t2 t3 : Int),
      ErrorNotifier._is_failure r1 = true → ErrorNotifier._is_failure r2 = true →
      ErrorNotifier._is_failure r3 = true → t1 ≤ t2 → t2 ≤ t3 →
      t3 - t1 < ErrorNotifier.time_window →
      (ErrorNotifier.track_and_notify tool1 r1 ⟨[], none⟩ t1).1.alert_created = some false ∧
      (ErrorNotifier.track_and_notify tool1 r1 ⟨[], none⟩ t1).2.2 = [] ∧
      (ErrorNotifier.track_and_notify tool2 r2
        (ErrorNotifier.track_and_notify tool1 r1 ⟨[], none⟩ t1).2.1 t2).1.alert_created =
        some false ∧
      (ErrorNotifier.track_and_notify tool2 r2
        (ErrorNotifier.track_and_notify tool1 r1 ⟨[], none⟩ t1).2.1 t2).2.2 = [] ∧
      (ErrorNotifier.track_and_notify tool3 r3
        (ErrorNotifier.track_and_notify tool2 r2
          (ErrorNotifier.track_and_notify tool1 r1 ⟨[], none⟩ t1).2.1 t2).2.1 t3).1.alert_created =
        some true ∧
      (ErrorNotifier.track_and_notify tool3 r3
        (ErrorNotifier.track_and_notify tool2 r2
          (ErrorNotifier.track_and_notify tool1 r1 ⟨[], none⟩ t1).2.1 t2).2.1 t3).2.2.length = 1 ∧
      (ErrorNotifier.track_and_notify tool3 r3
        (ErrorNotifier.track_and_notify tool2 r2
          (ErrorNotifier.track_and_notify tool1 r1 ⟨[], none⟩ t1).2.1 t2).2.1 t3).2.1.last_alert =
        some t3) ∧
    (∀ (tool_name : String) (r : ToolResult) (st : TrackerState) (now ta : Int),
      ErrorNotifier._is_failure r = true → st.last_alert = some ta →
      now - ta < ErrorNotifier.alert_cooldown →
      (ErrorNotifier.track_and_notify tool_name r st now).1.alert_created = some false ∧
      (ErrorNotifier.track_and_notify tool_name r st now).2.2 = []) ∧
    (∀ (tool_name : String) (r : ToolResult) (st : TrackerState) (now ta : Int),
      ErrorNotifier._is_failure r = true → st.last_alert = some ta →
      now - ta ≥ ErrorNotifier.alert_cooldown →
      (ErrorNotifier._clean_old_failures now (st.failures ++
        [⟨now, tool_name, r.error.getD "Unknown error"⟩])).length ≥
        ErrorNotifier.failure_threshold →
      (ErrorNotifier.track_and_notify tool_name r st now).1.alert_created = some true ∧
      (ErrorNotifier.track_and_notify tool_name r st now).2.2.length = 1 ∧
      (ErrorNotifier.track_and_notify tool_name r st now).2.1.last_alert = some now) := by
  refine ⟨?_, ?_, ?_⟩
  · intro tool1 tool2 tool3 r1 r2 r3 t1 t2 t3 h1 h2 h3 h12 h23 hw
    have tw : ErrorNotifier.time_window = 300 := rfl
    set rec1 : FailureRecord :=
      { timestamp := t1, tool := tool1, error_reason := r1.error.getD "Unknown error" } with hrec1
    set rec2 : FailureRecord :=
      { timestamp := t2, tool := tool2, error_reason := r2.error.getD "Unknown error" } with hrec2
    set rec3 : FailureRecord :=
      { timestamp := t3, tool := tool3, error_reason := r3.error.getD "Unknown error" } with hrec3
    have k1 : ErrorNotifier._clean_old_failures t1 ([] ++ [rec1]) = [rec1] := by
      have a1 : t1 > t1 - ErrorNotifier.time_window := by rw [tw]; omega
      simp [ErrorNotifier._clean_old_failures, List.filter, hrec1, a1]
    have e1 : ErrorNotifier.track_and_notify tool1 r1 ⟨[], none⟩ t1 =
        ({ error_tracked := true, reason := none,
           recent_failure_count := some 1, alert_created := some false,
           threshold := some ErrorNotifier.failure_threshold },
         { failures := [rec1], last_alert := none }, []) := by
      rw [track_step_none tool1 r1 ⟨[], none⟩ t1 h1 rfl]
      simp only [k1]
      norm_num [ErrorNotifier.failure_threshold]
    rw [e1]
    have k2 : ErrorNotifier._clean_old_failures t2 ([rec1] ++ [rec2]) = [rec1, rec2] := by
      have a1 : t1 > t2 - ErrorNotifier.time_window := by rw [tw]; omega
      have a2 : t2 > t2 - ErrorNotifier.time_window := by rw [tw]; omega
      simp [ErrorNotifier._clean_old_failures, List.filter, hrec1, hrec2, a1, a2]
    have e2 : ErrorNotifier.track_and_notify tool2 r2 ⟨[rec1], none⟩ t2 =
        ({ error_tracked := true, reason := none,
           recent_failure_count := some 2, alert_created := some false,
           threshold := some ErrorNotifier.failure_threshold },
         { failures := [rec1, rec2], last_alert := none }, []) := by
      rw [track_step_none tool2 r2 ⟨[rec1], none⟩ t2 h2 rfl]
      simp only [k2]
      norm_num [ErrorNotifier.failure_threshold]
    rw [e2]
    have k3 : ErrorNotifier._clean_old_failures t3 ([rec1, rec2] ++ [rec3]) =
        [rec1, rec2, rec3] := by
      have a1 : t1 > t3 - ErrorNotifier.time_window := by rw [tw]; omega
      have a2 : t2 > t3 - ErrorNotifier.time_window := by rw [tw]; omega
      have a3 : t3 > t3 - ErrorNotifier.time_window := by rw [tw]; omega
      simp [ErrorNotifier._clean_old_failures, List.filter, hrec1, hrec2, hrec3, a1, a2, a3]
    have e3 : ErrorNotifier.track_and_notify tool3 r3 ⟨[rec1, rec2], none⟩ t3 =
        ({ error_tracked := true, reason := none,
           recent_failure_count := some 3, alert_created := some true,
           threshold := some ErrorNotifier.failure_threshold },
         { failures := [rec1, rec2, rec3], last_alert := some t3 },
         [{ created_at := t3, failures := [rec1, rec2, rec3] }]) := by
      rw [track_step_none tool3 r3 ⟨[rec1, rec2], none⟩ t3 h3 rfl]
      simp only [k3]
      norm_num [ErrorNotifier.failure_threshold]
    rw [e3]
    norm_num
  · intro tool_name r st now ta hf hl hcd
    rw [track_step_cooldown tool_name r st now ta hf hl hcd]
    exact ⟨rfl, rfl⟩
  · intro tool_name r st now ta hf hl hcd hth
    rw [track_step_after_cooldown tool_name r st now ta hf hl hcd hth]
    exact ⟨rfl, rfl, rfl⟩

/-- Witness for C5: a burst at times 0, 60, 120 from the fresh state
alerts exactly on the third failure; with last_alert_time 0 a failure at
time 300 is suppressed; with last_alert_time 0, two recent stored
failures and a failure at time 1000 the tracker alerts again. -/
theorem C5_alert_threshold_and_cooldown_witness :
    ((ErrorNotifier.track_and_notify "a" ⟨some true, none, none⟩ ⟨[], none⟩ 0).1.alert_created =
      some false ∧
     (ErrorNotifier.track_and_notify "a" ⟨some true, none, none⟩ ⟨[], none⟩ 0).2.2 = [] ∧
     (ErrorNotifier.track_and_notify "b" ⟨some true, none, none⟩
       (ErrorNotifier.track_and_notify "a" ⟨some true, none, none⟩ ⟨[], none⟩ 0).2.1
       60).1.alert_created = some false ∧
     (ErrorNotifier.track_and_notify "b" ⟨some true, none, none⟩
       (ErrorNotifier.track_and_notify "a" ⟨some true, none, none⟩ ⟨[], none⟩ 0).2.1
       60).2.2 = [] ∧
     (ErrorNotifier.track_and_notify "c" ⟨some true, none, none⟩
       (ErrorNotifier.track_and_notify "b" ⟨some true, none, none⟩
         (ErrorNotifier.track_and_notify "a" ⟨some true, none, none⟩ ⟨[], none⟩ 0).2.1
         60).2.1 120).1.alert_created = some true ∧
     (ErrorNotifier.track_and_notify "c" ⟨some true, none, none⟩
       (ErrorNotifier.track_and_notify "b" ⟨some true, none, none⟩
         (ErrorNotifier.track_and_notify "a" ⟨some true, none, none⟩ ⟨[], none⟩ 0).2.1
         60).2.1 120).2.2.length = 1 ∧
     (ErrorNotifier.track_and_notify "c" ⟨some true, none, none⟩
       (ErrorNotifier.track_and_notify "b" ⟨some true, none, none⟩
         (ErrorNotifier.track_and_notify "a" ⟨some true, none, none⟩ ⟨[], none⟩ 0).2.1
         60).2.1 120).2.1.last_alert = some 120) ∧
    ((ErrorNotifier.track_and_notify "a" ⟨some true, none, none⟩
        ⟨[], some 0⟩ 300).1.alert_created = some false ∧
     (ErrorNotifier.track_and_notify "a" ⟨some true, none, none⟩ ⟨[], some 0⟩ 300).2.2 = []) ∧
    ((ErrorNotifier.track_and_notify "a" ⟨some true, none, none⟩
        ⟨[⟨900, "a", "e"⟩, ⟨910, "b", "e"⟩], some 0⟩ 1000).1.alert_created = some true ∧
     (ErrorNotifier.track_and_notify "a" ⟨some true, none, none⟩
        ⟨[⟨900, "a", "e"⟩, ⟨910, "b", "e"⟩], some 0⟩ 1000).2.2.length = 1 ∧
     (ErrorNotifier.track_and_notify "a" ⟨some true, none, none⟩
        ⟨[⟨900, "a", "e"⟩, ⟨910, "b", "e"⟩], some 0⟩ 1000).2.1.last_alert = some 1000) :=
  ⟨C5_alert_threshold_and_cooldown.1 "a" "b" "c" ⟨some true, none, none⟩
      ⟨some true, none, none⟩ ⟨some true, none, none⟩ 0 60 120 (by decide) (by decide)
      (by decide) (by decide) (by decide) (by decide),
   C5_alert_threshold_and_cooldown.2.1 "a" ⟨some true, none, none⟩ ⟨[], some 0⟩ 300 0
      (by decide) rfl (by decide),
   C5_alert_threshold_and_cooldown.2.2 "a" ⟨some true, none, none⟩
      ⟨[⟨900, "a", "e"⟩, ⟨910, "b", "e"⟩], some 0⟩ 1000 0
      (by decide) rfl (by decide) (by decide)⟩

/-- C6, counterexample: with the failure flag set, no attached error
text and non-empty content, the classifier reason is the string Error
flag: Unknown error, not the bare Unknown error the claim states; the
verdict is still failure by rule 1. -/
theorem C6_counterexample :
    AutoRetryHandler._is_failure ⟨some true, none, some ["ok"]⟩ =
      (true, "Error flag: Unknown error") ∧
    AutoRetryHandler._is_failure ⟨some true, none, some ["ok"]⟩ ≠
      (true, "Unknown error") := by
  refine ⟨by decide, by decide⟩

/-- C6, amended: for every outcome with the explicit failure flag set
and a non-empty content list, classification yields failure with reason
Error flag: followed by the attached error text, or Error flag: Unknown
error when no error text is attached, regardless of the content items;
rule 1 outranks rules 2 and 3. -/
theorem C6_amended_rule1_precedence (e : Option String) (c : List String)
    (_h : c ≠ []) :
    AutoRetryHandler._is_failure ⟨some true, e, some c⟩ =
      (true, "Error flag: " ++ e.getD "Unknown error") := by
  unfold AutoRetryHandler._is_failure
  simp

/-- Witness for C6, amended: with attached error text boom and
content item ok the reason is Error flag: boom. -/
theorem C6_amended_rule1_precedence_witness :
    AutoRetryHandler._is_failure ⟨some true, some "boom", some ["ok"]⟩ =
      (true, "Error flag: " ++ (some "boom").getD "Unknown error") :=
  C6_amended_rule1_precedence (some "boom") ["ok"] (by decide)

/-- C7: fingerprint determinism.  For every digest function, operation
name and two argument mappings holding the same key-value pairs (a
permutation, with no duplicate keys), the cache key is the same string:
the canonicalization sorts the keys before serialization, so insertion
order never affects the fingerprint. -/
theorem C7_fingerprint_determinism (digest : String → String) (op : String)
    {l1 l2 : List (String × JValue)} (hp : l1.Perm l2)
    (hnd : (l1.map Prod.fst).Nodup) :
    get_cache_key digest op l1 = get_cache_key digest op l2 := by
  unfold get_cache_key
  congr 1
  unfold dumpJ
  congr 2
  rw [dumpJEntries_eq_map, dumpJEntries_eq_map]
  have hp' : (l1.map (fun p => (p.1, dumpJ p.2))).Perm
      (l2.map (fun p => (p.1, dumpJ p.2))) := hp.map _
  have hnd' : ((l1.map (fun p => (p.1, dumpJ p.2))).map Prod.fst).Nodup := by
    rw [List.map_map]
    exact hnd
  rw [insertionSort_key_eq_of_perm hp' hnd']

/-- Witness for C7: the mappings a to 1, b to 2 and b to 2, a to 1 give
the same fingerprint. -/
theorem C7_fingerprint_determinism_witness :
    get_cache_key id "op" [("a", JValue.num 1), ("b", JValue.num 2)] =
      get_cache_key id "op" [("b", JValue.num 2), ("a", JValue.num 1)] :=
  C7_fingerprint_determinism id "op"
    (List.Perm.swap ("b", JValue.num 2) ("a", JValue.num 1) []) (by decide)

/-- C8, counterexample: in the paragraph 8 scenario the third failing
call arrives after the TTL of the cached entry has elapsed (entry
created at 0, call at 7200, TTL 3600), yet the Fallback Supplier still
returns the stale entry with fallback_used true and no reason, because
it reads the cache file without any TTL check and nothing has deleted
the file; the claim expects fallback_used false with reason No cached
data available. -/
theorem C8_counterexample :
    ((7200 : Int) - 0 > ResultCache.default_ttl) ∧
    (FallbackCacheHandler._is_failure ⟨some true, some "API error", none⟩ = true) ∧
    ((FallbackCacheHandler.handle_fallback id
        (resultCacheMain id "mcp__nsip__nsip_get_animal" [("id", JValue.str "X1")]
          ⟨none, none, some ["animal data"]⟩ [] 0).2
        "mcp__nsip__nsip_get_animal" [("id", JValue.str "X1")]
        ⟨some true, some "API error", none⟩ 7200).1.fallback_used = true) ∧
    ((FallbackCacheHandler.handle_fallback id
        (resultCacheMain id "mcp__nsip__nsip_get_animal" [("id", JValue.str "X1")]
          ⟨none, none, some ["animal data"]⟩ [] 0).2
        "mcp__nsip__nsip_get_animal" [("id", JValue.str "X1")]
        ⟨some true, some "API error", none⟩ 7200).1.reason = none) := by
  refine ⟨by decide, by decide, ?_, ?_⟩ <;> rfl

/-- C8, amended: in the paragraph 8 scenario, the first two steps hold
as claimed (a cached success is served on a later failure with
fallback_used true), but on the third failing call after TTL expiry the
Fallback Supplier still returns the stale entry with fallback_used true,
because it performs no TTL check; the No cached data available answer is
produced exactly when the backing entry is gone, for instance after a
Cache Store get has purged the expired entry. -/
theorem C8_amended_fallback_scenario (digest : String → String) (tool_name : String)
    (parameters : List (String × JValue)) (rs rf : ToolResult)
    (st0 : CacheState) (t0 t1 t2 : Int)
    (hcacheable : should_cache_tool tool_name = true)
    (hsucc : (AutoRetryHandler._is_failure rs).1 = false)
    (hfail : FallbackCacheHandler._is_failure rf = true)
    (hexp : t2 - t0 > ResultCache.default_ttl) :
    ((FallbackCacheHandler.handle_fallback digest
        (resultCacheMain digest tool_name parameters rs st0 t0).2
        tool_name parameters rf t1).1.fallback_used = true) ∧
    ((FallbackCacheHandler.handle_fallback digest
        (resultCacheMain digest tool_name parameters rs st0 t0).2
        tool_name parameters rf t1).1.cached_result = some rs) ∧
    ((FallbackCacheHandler.handle_fallback digest
        (resultCacheMain digest tool_name parameters rs st0 t0).2
        tool_name parameters rf t2).1.fallback_used = true) ∧
    ((FallbackCacheHandler.handle_fallback digest
        (ResultCache.get digest ResultCache.default_ttl
          (resultCacheMain digest tool_name parameters rs st0 t0).2
          tool_name parameters t2).2
        tool_name parameters rf t2).1 =
      { fallback_used := false, reason := some "No cached data available",
        cached_at := none, cache_age := none, cached_result := none,
        context_message := none }) := by
  have hie : rs.isError.getD false = false := by
    by_contra hne
    have hie' : rs.isError.getD false = true := by
      cases hb : rs.isError.getD false
      · exact absurd hb hne
      · rfl
    unfold AutoRetryHandler._is_failure at hsucc
    simp [hie'] at hsucc
  have hst1 : (resultCacheMain digest tool_name parameters rs st0 t0).2 =
      ResultCache.set digest st0 tool_name parameters rs t0 := by
    unfold resultCacheMain
    simp [hcacheable, hie]
  rw [hst1]
  have hlook : (ResultCache.set digest st0 tool_name parameters rs t0).lookup
      (get_cache_key digest tool_name parameters) =
      some { tool := tool_name, parameters := parameters, result := rs,
             cached_at := t0 } := by
    unfold ResultCache.set
    simp [List.lookup_cons]
  refine ⟨?_, ?_, ?_, ?_⟩
  · unfold FallbackCacheHandler.handle_fallback FallbackCacheHandler._load_cached_data
    simp [hfail, hlook]
  · unfold FallbackCacheHandler.handle_fallback FallbackCacheHandler._load_cached_data
    simp [hfail, hlook]
  · unfold FallbackCacheHandler.handle_fallback FallbackCacheHandler._load_cached_data
    simp [hfail, hlook]
  · have hget : (ResultCache.get digest ResultCache.default_ttl
        (ResultCache.set digest st0 tool_name parameters rs t0)
        tool_name parameters t2).2 =
        eraseEntry (ResultCache.set digest st0 tool_name parameters rs t0)
          (get_cache_key digest tool_name parameters) := by
      unfold ResultCache.get
      simp only [hlook]
      simp [hexp]
    rw [hget]
    unfold FallbackCacheHandler.handle_fallback FallbackCacheHandler._load_cached_data
    simp [hfail, lookup_eraseEntry]

/-- Witness for C8, amended: the concrete scenario of paragraph 8 with
times 0, 60, 7200 and the identity digest. -/
theorem C8_amended_fallback_scenario_witness :
    ((FallbackCacheHandler.handle_fallback id
        (resultCacheMain id "mcp__nsip__nsip_get_animal" [("id", JValue.str "X1")]
          ⟨none, none, some ["animal data"]⟩ [] 0).2
        "mcp__nsip__nsip_get_animal" [("id", JValue.str "X1")]
        ⟨some true, some "API error", none⟩ 60).1.fallback_used = true) ∧
    ((FallbackCacheHandler.handle_fallback id
        (resultCacheMain id "mcp__nsip__nsip_get_animal" [("id", JValue.str "X1")]
          ⟨none, none, some ["animal data"]⟩ [] 0).2
        "mcp__nsip__nsip_get_animal" [("id", JValue.str "X1")]
        ⟨some true, some "API error", none⟩ 60).1.cached_result =
      some ⟨none, none, some ["animal data"]⟩) ∧
    ((FallbackCacheHandler.handle_fallback id
        (resultCacheMain id "mcp__nsip__nsip_get_animal" [("id", JValue.str "X1")]
          ⟨none, none, some ["animal data"]⟩ [] 0).2
        "mcp__nsip__nsip_get_animal" [("id", JValue.str "X1")]
        ⟨some true, some "API error", none⟩ 7200).1.fallback_used = true) ∧
    ((FallbackCacheHandler.handle_fallback id
        (ResultCache.get id ResultCache.default_ttl
          (resultCacheMain id "mcp__nsip__nsip_get_animal" [("id", JValue.str "X1")]
            ⟨none, none, some ["animal data"]⟩ [] 0).2
          "mcp__nsip__nsip_get_animal" [("id", JValue.str "X1")] 7200).2
        "mcp__nsip__nsip_get_animal" [("id", JValue.str "X1")]
        ⟨some true, some "API error", none⟩ 7200).1 =
      { fallback_used := false, reason := some "No cached data available",
        cached_at := none, cache_age := none, cached_result := none,
        context_message := none }) :=
  C8_amended_fallback_scenario id "mcp__nsip__nsip_get_animal"
    [("id", JValue.str "X1")] ⟨none, none, some ["animal data"]⟩
    ⟨some true, some "API error", none⟩ [] 0 60 7200
    (by decide) (by decide) (by decide) (by decide)

/-- C9: for every outcome the Failure Tracker classifies as a
non-failure, track_and_notify returns error_tracked false with reason
No failure detected and leaves the persisted tracker state unchanged
while creating no alert file. -/
theorem C9_nonfailure_frame (tool_name : String) (r : ToolResult)
    (st : TrackerState) (now : Int)
    (h : ErrorNotifier._is_failure r = false) :
    ErrorNotifier.track_and_notify tool_name r st now =
      ({ error_tracked := false, reason := some "No failure detected",
         recent_failure_count := none, alert_created := none,
         threshold := none }, st, []) := by
  unfold ErrorNotifier.track_and_notify
  simp [h]

/-- Witness for C9: a successful outcome leaves a non-trivial tracker
state untouched. -/
theorem C9_nonfailure_frame_witness :
    ErrorNotifier.track_and_notify "mcp__nsip__nsip_get_animal"
      ⟨none, none, some ["ok"]⟩ ⟨[⟨0, "a", "e"⟩], some 0⟩ 100 =
      ({ error_tracked := false, reason := some "No failure detected",
         recent_failure_count := none, alert_created := none,
         threshold := none }, ⟨[⟨0, "a", "e"⟩], some 0⟩, []) :=
  C9_nonfailure_frame "mcp__nsip__nsip_get_animal" ⟨none, none, some ["ok"]⟩
    ⟨[⟨0, "a", "e"⟩], some 0⟩ 100 (by decide)

/-- C10: for every hook input whose tool name does not start with
mcp__nsip__, the auto-retry, fallback and error-notifier entry points
each output continue true with the handled flag false and reason Not an
NSIP tool, and leave the retry log, the cache, the fallback log, the
tracker state and the alert files unchanged. -/
theorem C10_non_nsip_frame (digest : String → String) (tool_name : String)
    (parameters : List (String × JValue)) (r : ToolResult)
    (cache : CacheState) (fbLog : List FallbackLogEntry)
    (retryLog : List RetryLogEntry) (st : TrackerState) (now : Int)
    (h : strStartsWith tool_name "mcp__nsip__" = false) :
    autoRetryMain tool_name r retryLog =
      ({ continue_flag := true, retry_handled := false,
         reason := some "Not an NSIP tool", retry_meta := none,
         context := none }, retryLog) ∧
    fallbackMain digest tool_name parameters r cache fbLog now =
      ({ continue_flag := true, fallback_checked := false,
         reason := some "Not an NSIP tool", context := none }, cache, fbLog) ∧
    errorNotifierMain tool_name r st now =
      ({ continue_flag := true,
         metadata :=
           { error_tracked := false, reason := some "Not an NSIP tool",
             recent_failure_count := none, alert_created := none,
             threshold := none },
         context_present := false }, st, []) := by
  unfold autoRetryMain fallbackMain errorNotifierMain
  simp [h]

/-- Witness for C10: the non-NSIP tool Read is not handled by any of
the three entry points and every piece of state is returned as it
was. -/
theorem C10_non_nsip_frame_witness :
    autoRetryMain "Read" ⟨some true, none, none⟩ [⟨"x", none, none, "retrying"⟩] =
      ({ continue_flag := true, retry_handled := false,
         reason := some "Not an NSIP tool", retry_meta := none,
         context := none }, [⟨"x", none, none, "retrying"⟩]) ∧
    fallbackMain id "Read" [] ⟨some true, none, none⟩ [] [⟨"x", "fallback_used"⟩] 0 =
      ({ continue_flag := true, fallback_checked := false,
         reason := some "Not an NSIP tool", context := none }, [],
       [⟨"x", "fallback_used"⟩]) ∧
    errorNotifierMain "Read" ⟨some true, none, none⟩ ⟨[⟨0, "a", "e"⟩], some 0⟩ 5 =
      ({ continue_flag := true,
         metadata :=
           { error_tracked := false, reason := some "Not an NSIP tool",
             recent_failure_count := none, alert_created := none,
             threshold := none },
         context_present := false }, ⟨[⟨0, "a", "e"⟩], some 0⟩, []) :=
  C10_non_nsip_frame id "Read" [] ⟨some true, none, none⟩ []
    [⟨"x", "fallback_used"⟩] [⟨"x", none, none, "retrying"⟩]
    ⟨[⟨0, "a", "e"⟩], some 0⟩ 5 (by decide)
